import Mathlib

/-!
Verification of the LightSense low-power motion-monitoring node
(src/lightsense.py) against its natural-language specification.

The SNAPpy source is shallowly embedded: every hardware primitive
(`writePin`, `readAdc`, `sleep`, `mcastRpc`, `poke`, ...) is recorded as an
element of an explicit action list, and every value that the hardware
supplies to the program (ADC samples, the remaining tick count returned by
`sleep`, RPC buffer handles delivered to the `HOOK_RPC_SENT` callback) is an
input of the corresponding Lean function, so that the definitions stay
executable and can be evaluated on concrete inputs.

SNAPpy semantics used by the embedding: `/` on non-negative integers is
integer division (modelled with `Nat` division); a function body without a
`return` statement returns `None` (modelled with an explicit `SnapVal.none`
result).
-/

namespace LightSense

/-! ## Constants (src/lightsense.py lines 2-58) -/

def DS_PACKET_SERIAL : Nat := 6
def DS_NULL : Nat := 0

def LS_VERSION : String := "v1.0.0"

def LED_PIN : Nat := 4
def BUTTON_PIN : Nat := 5
def MOTION_PIN : Nat := 6

def MOTION_EN : Nat := 7
def TEMPERATURE_EN : Nat := 9
def VREF_EN : Nat := 10
def LIGHT_EN : Nat := 12

def VREF_CH : Nat := 3
def TEMPERATURE_CH : Nat := 0
def LIGHT_CH : Nat := 5

def STARTUP_DELAY : Nat := 10

def RT_MOTION : String := "motion"
def RT_STILL : String := "still"

def mcast_group : Nat := 1
def mcast_ttl : Nat := 5

def MOTION_DEADBAND : Nat := 1
def MOTION_STILLNESS : Nat := 60
def STILL_REPORT_PERIOD : Nat := 120
def PIR_SETTLE_TIME : Nat := 5

/-! ## Data model: device states, FSM events, report kinds -/

/-- Device states (`ST_WAIT_NEW_MOTION`, `ST_WAIT_DEADBAND`, `ST_WAIT_STILL`,
`ST_INIT`). -/
inductive DState
  | waitNewMotion
  | waitDeadband
  | waitStill
  | init
deriving DecidableEq, Repr, Fintype

/-- FSM driver events (`EV_MOTION`, `EV_EXPIRY`, `EV_RPTSENT`). -/
inductive Event
  | motion
  | expiry
  | rptSent
deriving DecidableEq, Repr, Fintype

/-- Report kinds carried by `ls_report` (`RT_MOTION` / `RT_STILL`). -/
inductive ReportKind
  | motion
  | still
deriving DecidableEq, Repr, Fintype

/-- String tag actually passed to `mcastRpc` for each report kind. -/
def reportTypeStr : ReportKind → String
  | .motion => RT_MOTION
  | .still => RT_STILL

/-! ## Sensor layer (`_read_battery`, `_read_photocell`, `_read_temperature`,
`_update_sensors`, `_send_report`) -/

/-- A SNAPpy runtime value as it appears in the sensor globals and in the
`ls_report` payload: `None`, a non-negative integer, or a string. -/
inductive SnapVal
  | none
  | num (n : Nat)
  | str (s : String)
deriving DecidableEq, Repr

/-- Hardware actions performed by the sensor-reading functions. -/
inductive SensAct
  | power (pin : Nat) (enable : Bool)
  | adcRead (ch : Nat)
deriving DecidableEq, Repr

/-- Number of `readAdc` calls in a sensor action list. -/
def countAdcReads (acts : List SensAct) : Nat :=
  (acts.filter fun a =>
    match a with
    | .adcRead _ => true
    | _ => false).length

/-- The module-level globals `batt`, `photo`, `temperature`
(all initialised to `0`). -/
structure Globals where
  batt : SnapVal
  photo : SnapVal
  temperature : SnapVal
deriving DecidableEq, Repr

def initialGlobals : Globals := ⟨.num 0, .num 0, .num 0⟩

/-- `_read_battery`: powers `VREF_EN`, takes a single ADC sample (the oracle
`adc` gives the value of each successive `readAdc` call), stores the raw
sample in the global `batt`, powers off, and returns the sample converted to
millivolts via `((30690/batt)*100)/3` (integer division).
Result: (hardware actions, updated globals, returned value). -/
def readBattery (adc : Nat → Nat) (g : Globals) :
    List SensAct × Globals × SnapVal :=
  let raw := adc 0
  ([.power VREF_EN true, .adcRead VREF_CH, .power VREF_EN false],
   {g with batt := .num raw}, .num (30690 / raw * 100 / 3))

/-- The sampling loop shared by `_read_photocell` and `_read_temperature`:
`i = 0; sum = 0; while i < 32: (if i > 1: sum += readAdc(ch)); i += 1`.
The loop counter increases toward the bound, so the recursion is driven by a
fuel argument (`33` steps always suffice to reach `i = 32`).
Result: (ADC read actions, final `i`, final `sum`);
`adc` gives the sample returned by the read of iteration `i`. -/
def sampleLoop (adc : Nat → Nat) (ch : Nat) :
    Nat → Nat → Nat → List SensAct × Nat × Nat
  | 0, i, sum => ([], i, sum)
  | fuel + 1, i, sum =>
    if i < 32 then
      if 1 < i then
        let r := sampleLoop adc ch fuel (i + 1) (sum + adc i)
        (.adcRead ch :: r.1, r.2)
      else
        sampleLoop adc ch fuel (i + 1) sum
    else ([], i, sum)

/-- `_read_photocell`: powers `LIGHT_EN`, runs the 32-iteration sampling
loop on `LIGHT_CH`, stores `sum/(i-2)` in the global `photo`, powers off.
The SNAPpy function has no `return` statement, so it returns `None`. -/
def readPhotocell (adc : Nat → Nat) (g : Globals) :
    List SensAct × Globals × SnapVal :=
  let r := sampleLoop adc LIGHT_CH 33 0 0
  ([.power LIGHT_EN true] ++ r.1 ++ [.power LIGHT_EN false],
   {g with photo := .num (r.2.2 / (r.2.1 - 2))}, .none)

/-- `_read_temperature`: identical to `_read_photocell` but on
`TEMPERATURE_EN` / `TEMPERATURE_CH`, storing into the global `temperature`;
no `return` statement, so it returns `None`. -/
def readTemperature (adc : Nat → Nat) (g : Globals) :
    List SensAct × Globals × SnapVal :=
  let r := sampleLoop adc TEMPERATURE_CH 33 0 0
  ([.power TEMPERATURE_EN true] ++ r.1 ++ [.power TEMPERATURE_EN false],
   {g with temperature := .num (r.2.2 / (r.2.1 - 2))}, .none)

/-- `_update_sensors`: `batt = _read_battery(); photo = _read_photocell();
temperature = _read_temperature()` — each global is assigned the RETURN
VALUE of the corresponding read function (after that function has itself
stored into the global). `adcB`, `adcP`, `adcT` are the ADC oracles of the
three reads. -/
def updateSensors (adcB adcP adcT : Nat → Nat) (g : Globals) :
    List SensAct × Globals :=
  let rB := readBattery adcB g
  let g1 : Globals := {rB.2.1 with batt := rB.2.2}
  let rP := readPhotocell adcP g1
  let g2 : Globals := {rP.2.1 with photo := rP.2.2}
  let rT := readTemperature adcT g2
  let g3 : Globals := {rT.2.1 with temperature := rT.2.2}
  (rB.1 ++ rP.1 ++ rT.1, g3)

/-- `_send_report(report_type)`: updates the sensor globals, lights the LED,
and broadcasts `ls_report` with payload
`(LS_VERSION, batt, photo, temperature, report_type)`.
Result: (updated globals, the transmitted payload). -/
def sendReportMsg (adcB adcP adcT : Nat → Nat) (g : Globals)
    (reportType : String) : Globals × List SnapVal :=
  let u := updateSensors adcB adcP adcT g
  (u.2, [.str LS_VERSION, u.2.batt, u.2.photo, u.2.temperature,
         .str reportType])

/-! ## Sleep and event classification (`_sleep`) -/

/-- Radio/timer actions performed by `_sleep`. -/
inductive RadioAct
  | rxSet (enable : Bool)
  | suspend (maxTicks : Nat)
deriving DecidableEq, Repr

/-- Classification of a wake: `EV_EXPIRY if ticksRemain == 0 else EV_MOTION`. -/
def classify (ticksRemain : Nat) : Event :=
  if ticksRemain = 0 then .expiry else .motion

/-- `_sleep(time)`: `rx(False); ticksRemain = sleep(0, time);
return EV_EXPIRY if ticksRemain == 0 else EV_MOTION`. The remaining tick
count reported by the hardware is the input `ticksRemain`.
Result: (hardware actions in order, classified event). -/
def lsSleep (time ticksRemain : Nat) : List RadioAct × Event :=
  ([.rxSet false, .suspend time], classify ticksRemain)

/-! ## Motion arming (`_monitor_motion`) and the FSM micro-actions -/

/-- Elementary operations performed inside one FSM transition, in source
order. `motionEn b` is `writePin(MOTION_EN, b)`, `settleSleep d` is the
plain `sleep(0, d)` whose result is discarded, `wakeEdges b` is the pair of
`poke` writes that set (`b = true`) or clear (`b = false`) the rising-edge
wake bits of registers 0x16/0x17, `updateSensors` is the sensor snapshot
taken by `_send_report`, and `send k` is the `mcastRpc` broadcast followed
by `current_rpc_buffer = getInfo(9)`. -/
inductive Act
  | ledSet (off : Bool)
  | setState (s : DState)
  | motionEn (b : Bool)
  | settleSleep (d : Nat)
  | wakeEdges (b : Bool)
  | updateSensors
  | send (k : ReportKind)
deriving DecidableEq, Repr

/-- `_monitor_motion(do_monitor)`: writes `MOTION_EN`; when enabling, sleeps
`PIR_SETTLE_TIME` with a plain `sleep` (its outcome `settleTicksRemain` is
not classified — the comment in the source says "don't call _sleep()!") and
only then pokes the wake-on-rising-edge registers; when disabling, clears
the wake registers with no delay. Result: (actions, classified FSM event
produced — always `none`). -/
def monitorMotion (doMonitor : Bool) (_settleTicksRemain : Nat) :
    List Act × Option Event :=
  if doMonitor then
    ([.motionEn true, .settleSleep PIR_SETTLE_TIME, .wakeEdges true],
     Option.none)
  else
    ([.motionEn false, .wakeEdges false], Option.none)

/-- The action block `_monitor_motion(b)` contributes to a transition
(independent of the settle-sleep outcome, see `c10_settle_discarded`). -/
def monitorMotionOps (b : Bool) : List Act := (monitorMotion b 0).1

/-- The action block `_send_report(k)` contributes to a transition:
snapshot the sensors, light the LED (active low), broadcast. -/
def sendReportOps (k : ReportKind) : List Act :=
  [.updateSensors, .ledSet false, .send k]

/-- How the driver obtains the next loop event after a transition:
`noEvent` is `event = None`, `sleepFor d` is `event = _sleep(d)`, and
`fatal` is `reboot()`. -/
inductive EventSrc
  | noEvent
  | sleepFor (d : Nat)
  | fatal
deriving DecidableEq, Repr

/-- One FSM transition: the elementary actions in source order, the value of
`device_state` after the transition, and how the next loop event is
obtained. -/
structure StepOut where
  acts : List Act
  next : DState
  eventSrc : EventSrc
deriving DecidableEq, Repr

/-- The body of the `while` loop of `_fsm`, for one `(device_state, event)`
pair. In `ST_INIT` the event value is not inspected. On the fatal branches
(`reboot()`) no state assignment happens, so `next` is the unchanged state. -/
def fsmStep : DState → Event → StepOut
  | .init, _ =>
      ⟨[.ledSet true, .setState .waitNewMotion] ++ monitorMotionOps true,
       .waitNewMotion, .sleepFor STILL_REPORT_PERIOD⟩
  | .waitNewMotion, .expiry =>
      ⟨sendReportOps .still, .waitNewMotion, .noEvent⟩
  | .waitNewMotion, .motion =>
      ⟨[.setState .waitDeadband] ++ monitorMotionOps false ++
        sendReportOps .motion, .waitDeadband, .noEvent⟩
  | .waitNewMotion, .rptSent =>
      ⟨[], .waitNewMotion, .sleepFor STILL_REPORT_PERIOD⟩
  | .waitDeadband, .expiry =>
      ⟨monitorMotionOps true ++ [.setState .waitStill],
       .waitStill, .sleepFor MOTION_STILLNESS⟩
  | .waitDeadband, .motion =>
      ⟨[], .waitDeadband, .fatal⟩
  | .waitDeadband, .rptSent =>
      ⟨[], .waitDeadband, .sleepFor MOTION_DEADBAND⟩
  | .waitStill, .expiry =>
      ⟨[.setState .waitNewMotion] ++ sendReportOps .still,
       .waitNewMotion, .noEvent⟩
  | .waitStill, .motion =>
      ⟨[.setState .waitDeadband] ++ monitorMotionOps false ++
        sendReportOps .motion, .waitDeadband, .noEvent⟩
  | .waitStill, .rptSent =>
      ⟨[], .waitStill, .fatal⟩

/-! ## Observable transition table (for comparison with the spec's table) -/

/-- The operations the spec's transition table talks about: arming/disarming
the detector, taking a sensor snapshot, transmitting a report. -/
inductive RelOp
  | arm (b : Bool)
  | snap
  | tx (k : ReportKind)
deriving DecidableEq, Repr

/-- Projection of a transition's elementary actions onto the spec-level
operations (LED writes, register pokes and the settle sleep are dropped;
`motionEn b` is the arm/disarm write). -/
def relOps (acts : List Act) : List RelOp :=
  acts.filterMap fun a =>
    match a with
    | .motionEn b => some (.arm b)
    | .updateSensors => some .snap
    | .send k => some (.tx k)
    | _ => Option.none

/-- Spec-level view of one transition-table entry. -/
structure Entry where
  ops : List RelOp
  next : DState
  src : EventSrc
deriving DecidableEq, Repr

/-- Spec-level observation of the coded transition for `(s, e)`. -/
def observe (s : DState) (e : Event) : Entry :=
  ⟨relOps (fsmStep s e).acts, (fsmStep s e).next, (fsmStep s e).eventSrc⟩

/-- The transition table exactly as the specification states it
(spec section 4.1 and claim C1), written independently of `fsmStep`. -/
def specTable : DState → Event → Entry
  | .init, _ =>
      ⟨[.arm true], .waitNewMotion, .sleepFor STILL_REPORT_PERIOD⟩
  | .waitNewMotion, .expiry =>
      ⟨[.snap, .tx .still], .waitNewMotion, .noEvent⟩
  | .waitNewMotion, .motion =>
      ⟨[.arm false, .snap, .tx .motion], .waitDeadband, .noEvent⟩
  | .waitNewMotion, .rptSent =>
      ⟨[], .waitNewMotion, .sleepFor STILL_REPORT_PERIOD⟩
  | .waitDeadband, .expiry =>
      ⟨[.arm true], .waitStill, .sleepFor MOTION_STILLNESS⟩
  | .waitDeadband, .motion =>
      ⟨[], .waitDeadband, .fatal⟩
  | .waitDeadband, .rptSent =>
      ⟨[], .waitDeadband, .sleepFor MOTION_DEADBAND⟩
  | .waitStill, .expiry =>
      ⟨[.snap, .tx .still], .waitNewMotion, .noEvent⟩
  | .waitStill, .motion =>
      ⟨[.arm false, .snap, .tx .motion], .waitDeadband, .noEvent⟩
  | .waitStill, .rptSent =>
      ⟨[], .waitStill, .fatal⟩

/-- Every write that arms the detector is immediately followed by the settle
sleep and only then by the wake-register configuration. -/
def settleOk : List Act → Bool
  | [] => true
  | .motionEn true :: .settleSleep _ :: .wakeEdges true :: rest => settleOk rest
  | .motionEn true :: _ => false
  | _ :: rest => settleOk rest

/-! ## Micro-step configurations (state of the world between elementary
actions of a transition) -/

/-- The part of the hardware/program state the armed-iff-state invariant is
about: `device_state`, the `MOTION_EN` pin, and the wake-on-rising-edge
register bits. -/
structure MConf where
  state : DState
  motionEn : Bool
  wakeEdges : Bool
deriving DecidableEq, Repr, Fintype

/-- Effect of one elementary action on an `MConf`. -/
def applyActM (c : MConf) : Act → MConf
  | .setState s => {c with state := s}
  | .motionEn b => {c with motionEn := b}
  | .wakeEdges b => {c with wakeEdges := b}
  | _ => c

/-- All configurations passed through while executing `acts` from `c`,
including the initial and final ones. -/
def microConfigs : MConf → List Act → List MConf
  | c, [] => [c]
  | c, a :: rest => c :: microConfigs (applyActM c a) rest

/-- The configuration after a complete transition. -/
def endMConf (c : MConf) (e : Event) : MConf :=
  (fsmStep c.state e).acts.foldl applyActM c

/-- Motion detection is armed: enable pin high and wake edges configured. -/
def armed (c : MConf) : Bool := c.motionEn && c.wakeEdges

/-- The spec's invariant: armed iff the state is `WaitNewMotion` or
`WaitStill`. -/
def motionInv (c : MConf) : Bool :=
  armed c == (c.state == DState.waitNewMotion || c.state == DState.waitStill)

/-! ## Device-level driver loop (`_fsm`), transmission handles, and the
report-completion hook (`_report_sent`) -/

/-- Driver-owned device state at the granularity of the report handshake:
`device_state`, the pending transmission handle `current_rpc_buffer`
(`Option.none` when cleared) and a counter used to model the RPC buffer
references handed out by `getInfo(9)`. -/
structure Device where
  state : DState
  pending : Option Nat
  nextHandle : Nat
deriving DecidableEq, Repr

/-- Effect of an elementary action on the `Device`: a `send` issues the
broadcast and records its buffer handle in `current_rpc_buffer`. -/
def applyActD (d : Device) : Act → Device
  | .setState s => {d with state := s}
  | .send _ => {d with pending := some d.nextHandle,
                       nextHandle := d.nextHandle + 1}
  | _ => d

/-- Runs the elementary actions of a transition, recording for each action
the value of `current_rpc_buffer` at the moment the action is performed. -/
def runActs : Device → List Act → Device × List (Act × Option Nat)
  | d, [] => (d, [])
  | d, a :: rest =>
    let r := runActs (applyActD d a) rest
    (r.1, (a, d.pending) :: r.2)

/-- How an invocation of the `_fsm` loop ended: the pending event became
`None` (`finished`), `reboot()` was reached (`rebooted`), or the fuel bound
of the model was exhausted (`fuelOut` — shown unreachable for fuel ≥ 3 in
`c9_fsm_loop_terminates`). -/
inductive LoopEnd
  | finished
  | rebooted
  | fuelOut
deriving DecidableEq, Repr

/-- Result of one invocation of the `_fsm` loop: final device, the action
trace (with the pending handle recorded at each action), the next unused
index into the sleep oracle, and how the loop ended. -/
structure RunOut where
  dev : Device
  trace : List (Act × Option Nat)
  idx : Nat
  ended : LoopEnd
deriving DecidableEq, Repr

/-- `_fsm(event)`: `while event is not None`, apply the transition for
`(device_state, event)` and obtain the next event from its `EventSrc`
(`_sleep`'s classification is driven by the oracle `oracle`, which gives the
remaining tick count of each successive classified sleep). -/
def runLoopD (oracle : Nat → Nat) :
    Nat → Nat → Device → Option Event → RunOut
  | _, idx, d, Option.none => ⟨d, [], idx, .finished⟩
  | 0, idx, d, some _ => ⟨d, [], idx, .fuelOut⟩
  | fuel + 1, idx, d, some e =>
    let out := fsmStep d.state e
    let ra := runActs d out.acts
    match out.eventSrc with
    | .fatal => ⟨ra.1, ra.2, idx, .rebooted⟩
    | .noEvent => ⟨ra.1, ra.2, idx, .finished⟩
    | .sleepFor _ =>
      let r := runLoopD oracle fuel (idx + 1) ra.1
                 (some (classify (oracle idx)))
      ⟨r.dev, ra.2 ++ r.trace, r.idx, r.ended⟩

/-- Number of loop iterations still needed from `(state, event)`; used as
the termination measure of the `_fsm` loop. -/
def rank : DState → Event → Nat
  | .waitDeadband, .rptSent => 3
  | .waitDeadband, .expiry => 2
  | .waitNewMotion, .rptSent => 2
  | .init, _ => 2
  | _, _ => 1

/-- `_report_sent(bufRef)` (the `HOOK_RPC_SENT` callback): does nothing
before the startup gate; otherwise turns the LED off, and only when the
delivered buffer reference equals `current_rpc_buffer` clears the pending
handle and re-enters the FSM loop with `EV_RPTSENT`. -/
def reportSentHook (oracle : Nat → Nat) (fuel idx : Nat)
    (initialized : Bool) (d : Device) (buf : Nat) : RunOut :=
  if initialized then
    if some buf = d.pending then
      let r := runLoopD oracle fuel idx {d with pending := Option.none}
                 (some .rptSent)
      ⟨r.dev, (.ledSet true, d.pending) :: r.trace, r.idx, r.ended⟩
    else ⟨d, [(.ledSet true, d.pending)], idx, .finished⟩
  else ⟨d, [], idx, .finished⟩

/-- Processes a sequence of `HOOK_RPC_SENT` callbacks (after startup),
accumulating the action traces. -/
def execCallbacks (oracle : Nat → Nat) (fuel : Nat) :
    List Nat → Nat → Device → RunOut
  | [], idx, d => ⟨d, [], idx, .finished⟩
  | buf :: rest, idx, d =>
    let r := reportSentHook oracle fuel idx true d buf
    let r2 := execCallbacks oracle fuel rest r.idx r.dev
    ⟨r2.dev, r.trace ++ r2.trace, r2.idx, r2.ended⟩

/-- Device state on boot: `device_state = ST_INIT`,
`current_rpc_buffer = None`. -/
def initialDevice : Device := ⟨.init, Option.none, 0⟩

/-- A post-startup execution of the node: `_init`'s kickoff call
`_fsm(EV_EXPIRY)` followed by an arbitrary sequence of completion
callbacks. Every FSM entry point of the source is covered: `_fsm` is called
only from `_init` and `_report_sent`, and `EV_MOTION` arises only inside
the loop as a classified sleep outcome (driven by `oracle`). -/
def execution (oracle : Nat → Nat) (fuel : Nat) (callbacks : List Nat) :
    RunOut :=
  let r := runLoopD oracle fuel 0 initialDevice (some .expiry)
  let r2 := execCallbacks oracle fuel callbacks r.idx r.dev
  ⟨r2.dev, r.trace ++ r2.trace, r2.idx, r2.ended⟩

/-- Recognises the broadcast action. -/
def isSendB : Act → Bool
  | .send _ => true
  | _ => false

/-- Number of broadcasts in an action list. -/
def countSends : List Act → Nat
  | [] => 0
  | a :: rest => (if isSendB a then 1 else 0) + countSends rest

/-- Recognises the sleep-and-classify event source. -/
def isSleepSrc : EventSrc → Bool
  | .sleepFor _ => true
  | _ => false

/-- Every broadcast in the trace was issued while `current_rpc_buffer` was
clear (no transmission outstanding). -/
def sendsClean (tr : List (Act × Option Nat)) : Bool :=
  tr.all fun p => !isSendB p.1 || p.2.isNone

/-! ## Startup sequencer (`_tick1s`, `_tick100ms`, `_init`,
`_set_pins_low_power`) -/

/-- The globals of the startup gate: `seconds_since_startup` (starts at 0)
and `initialized` (starts `False`). -/
structure BootState where
  secondsSinceStartup : Nat
  initialized : Bool
deriving DecidableEq, Repr

/-- `_tick1s` (the `HOOK_1S` callback): once `seconds_since_startup`
exceeds `STARTUP_DELAY` and the gate is still closed, set `initialized` and
run `_init`; otherwise just count. Result: (new state, whether `_init` was
invoked on this tick). -/
def tick1s (b : BootState) : BootState × Bool :=
  if ¬b.initialized ∧ b.secondsSinceStartup > STARTUP_DELAY then
    ({b with initialized := true}, true)
  else
    ({b with secondsSinceStartup := b.secondsSinceStartup + 1}, false)

/-- State of the gate and number of `_init` invocations after `n` one-second
ticks from boot. -/
def runTicks : Nat → BootState × Nat
  | 0 => (⟨0, false⟩, 0)
  | n + 1 =>
    let r := runTicks n
    let t := tick1s r.1
    (t.1, r.2 + if t.2 then 1 else 0)

/-- The visual heartbeat emitted by `_tick100ms`. -/
inductive PulseAct
  | pulse (pin width : Nat)
deriving DecidableEq, Repr

/-- `_tick100ms` (the `HOOK_100MS` callback): pulses the LED while the gate
is closed, does nothing afterwards; it never touches the FSM. -/
def tick100ms (initialized : Bool) : List PulseAct :=
  if ¬initialized then [.pulse LED_PIN 50] else []

/-- Hardware actions of the one-time initialization `_init`. -/
inductive HwAct
  | crossConnect (a b : Nat)
  | setPinDir (pin : Nat) (isOutput : Bool)
  | writePin (pin : Nat) (v : Bool)
  | updateSensors
  | monitorArm (b : Bool)
  | fsmCall (e : Event)
deriving DecidableEq, Repr

/-- `_set_pins_low_power`: `pin = 0; while pin <= 32: setPinDir(pin, True);
writePin(pin, False); pin += 1`. -/
def setPinsLowPower : List HwAct :=
  ((List.range 33).map fun p => [HwAct.setPinDir p true,
                                 HwAct.writePin p false]).flatten

/-- `_init`: disconnect packet serial, set all pins to low-power outputs,
precharge the ADC with an initial sensor snapshot, enable the two input
pins, arm motion detection, turn the LED off, and kick off the FSM with a
synthetic `EV_EXPIRY`. -/
def initActs : List HwAct :=
  [.crossConnect DS_PACKET_SERIAL DS_NULL] ++ setPinsLowPower ++
  [.updateSensors, .setPinDir BUTTON_PIN false, .setPinDir MOTION_PIN false,
   .monitorArm true, .writePin LED_PIN true, .fsmCall .expiry]

/-! ## Helper lemmas -/

/-- The micro-actions of every transition end in the state that the source
assigns to `device_state` (the fatal rows leave the state unchanged). -/
theorem endMConf_state_eq_next :
    ∀ (c : MConf) (e : Event), (endMConf c e).state = (fsmStep c.state e).next := by
  decide

/-! ## C1: the transition table -/

/-- C1: for every device state and classified event, the FSM driver applies
exactly the spec's transition-table entry for that pair — the observable
operations (arm/disarm, sensor snapshot, report transmission) in order, the
next state, and how the next loop event is obtained (none / classified
sleep of the stated duration / fatal reboot) all agree with `specTable`,
and every arming write is performed with the settle delay before the wake
registers are configured. -/
theorem c1_transition_table :
    (∀ (s : DState) (e : Event), observe s e = specTable s e) ∧
    (∀ (s : DState) (e : Event), settleOk (fsmStep s e).acts = true) := by
  constructor <;> decide

/-! ## C2: the armed-iff-waiting invariant -/

/-- C2 counterexample: starting from `WaitNewMotion` with the detector armed
(a configuration satisfying the invariant), the `Motion` transition assigns
`device_state = ST_WAIT_DEADBAND` before `_monitor_motion(False)` runs, so
the intermediate configuration has the detector armed in `WaitDeadband` —
the invariant does not hold continuously during transition actions. -/
theorem c2_counterexample :
    motionInv ⟨.waitNewMotion, true, true⟩ = true ∧
    ¬ ((microConfigs ⟨.waitNewMotion, true, true⟩
          (fsmStep .waitNewMotion .motion).acts).all motionInv = true) := by
  decide

/-- C2 (amended): the armed-iff-(`WaitNewMotion` or `WaitStill`) invariant is
preserved by every complete transition — it holds at every quiescent point
(before and after each transition action), though not at the intermediate
micro-steps between the state assignment and the arm/disarm call. -/
theorem c2_armed_inv_quiescent :
    ∀ (c : MConf) (e : Event),
      motionInv c = true → motionInv (endMConf c e) = true := by
  decide

/-- Witness for `c2_armed_inv_quiescent` at the deadband-expiry re-arm
transition. -/
theorem c2_armed_inv_quiescent_witness :
    motionInv ⟨.waitDeadband, false, false⟩ = true ∧
    motionInv (endMConf ⟨.waitDeadband, false, false⟩ .expiry) = true :=
  ⟨by decide, c2_armed_inv_quiescent ⟨.waitDeadband, false, false⟩ .expiry (by decide)⟩

/-! ## C3: sleep and wake classification -/

/-- C3: `_sleep(time)` first powers the radio receiver off and then suspends
for up to `time`; the classified event is `Expiry` exactly when the
remaining unslept time is zero and `Motion` for every nonzero remaining
time. -/
theorem c3_sleep_classification :
    ∀ (time ticksRemain : Nat),
      (lsSleep time ticksRemain).1 = [.rxSet false, .suspend time] ∧
      ((lsSleep time ticksRemain).2 = .expiry ↔ ticksRemain = 0) ∧
      ((lsSleep time ticksRemain).2 = .motion ↔ ticksRemain ≠ 0) := by
  intro time ticksRemain
  refine ⟨rfl, ?_, ?_⟩ <;> by_cases h : ticksRemain = 0 <;>
    simp [lsSleep, classify, h]

/-! ## C6: sensor sampling -/

/-- C6 counterexample: `_read_battery` performs a single ADC sample, not 32;
and the photocell read performs only 30 ADC samples (the first two of the
32 loop iterations perform no read at all). -/
theorem c6_counterexample :
    countAdcReads (readBattery (fun _ => 100) initialGlobals).1 = 1 ∧
    countAdcReads (readPhotocell (fun _ => 100) initialGlobals).1 = 30 ∧
    ¬ countAdcReads (readBattery (fun _ => 100) initialGlobals).1 = 32 := by
  decide

/-- C6 (amended): the light and temperature reads each power their sensor
on, run a 32-iteration loop that samples the ADC only on iterations 2..31
(30 samples), store the average `sum/30` of those samples in the
corresponding global while returning `None`, and power the sensor off;
the battery read powers its sensor on, takes a single sample, powers off,
and returns the sample converted to millivolts by `((30690/batt)*100)/3`. -/
theorem c6_sensor_reads :
    ∀ (adc : Nat → Nat) (g : Globals),
      (readBattery adc g).1 =
        [.power VREF_EN true, .adcRead VREF_CH, .power VREF_EN false] ∧
      (readBattery adc g).2.1.batt = .num (adc 0) ∧
      (readBattery adc g).2.2 = .num (30690 / adc 0 * 100 / 3) ∧
      (readPhotocell adc g).1 =
        [.power LIGHT_EN true] ++ List.replicate 30 (.adcRead LIGHT_CH) ++
          [.power LIGHT_EN false] ∧
      (readPhotocell adc g).2.1.photo =
        .num ((List.range' 2 30).foldl (fun s i => s + adc i) 0 / 30) ∧
      (readPhotocell adc g).2.2 = .none ∧
      (readTemperature adc g).1 =
        [.power TEMPERATURE_EN true] ++
          List.replicate 30 (.adcRead TEMPERATURE_CH) ++
          [.power TEMPERATURE_EN false] ∧
      (readTemperature adc g).2.1.temperature =
        .num ((List.range' 2 30).foldl (fun s i => s + adc i) 0 / 30) ∧
      (readTemperature adc g).2.2 = .none := by
  intro adc g
  exact ⟨rfl, rfl, rfl, rfl, rfl, rfl, rfl, rfl, rfl⟩

/-! ## C7: report payload contents -/

/-- C7: the code contradicts its intent. Each transmitted `ls_report`
carries the protocol version string, the report kind and the battery value
in millivolts, but the light and temperature fields are `None`: the read
functions store their averages in the globals and return `None` (they have
no `return` statement), and `_update_sensors` then assigns those `None`
return values over the stored averages before `_send_report` broadcasts. -/
theorem c7_report_payload_bug :
    ∀ (adcB adcP adcT : Nat → Nat) (g : Globals) (rt : String),
      (readPhotocell adcP g).2.1.photo =
        .num ((List.range' 2 30).foldl (fun s i => s + adcP i) 0 / 30) ∧
      (updateSensors adcB adcP adcT g).2.photo = SnapVal.none ∧
      (updateSensors adcB adcP adcT g).2.temperature = SnapVal.none ∧
      (sendReportMsg adcB adcP adcT g rt).2 =
        [.str LS_VERSION, .num (30690 / adcB 0 * 100 / 3),
         SnapVal.none, SnapVal.none, .str rt] := by
  intro adcB adcP adcT g rt
  exact ⟨rfl, rfl, rfl, rfl⟩

/-! ## C10: the settle delay while arming -/

/-- C10: arming writes the enable pin, runs the plain settle sleep whose
outcome is discarded (the actions and the produced event — always none —
are independent of the remaining tick count, so an early wake during the
settle window yields no FSM event, although a nonzero remaining time in
`_sleep` would classify as `Motion`), and configures the rising-edge wake
registers only after the settle sleep; disarming clears the wake registers
with no delay. -/
theorem c10_settle_discarded :
    ∀ r : Nat,
      monitorMotion true r =
        ([.motionEn true, .settleSleep PIR_SETTLE_TIME, .wakeEdges true],
         Option.none) ∧
      monitorMotion false r = ([.motionEn false, .wakeEdges false],
         Option.none) ∧
      (monitorMotion true r).2 = Option.none ∧
      classify (r + 1) = .motion := by
  intro r
  refine ⟨rfl, rfl, rfl, ?_⟩
  simp [classify]

/-! ## C4: the report-completion handshake -/

/-- C4: after startup, a completion notification whose buffer reference does
not match `current_rpc_buffer` only turns the LED off — the pending handle
is kept and the device state is untouched; a matching notification clears
the pending handle first and only then runs the FSM loop on `ReportSent`. -/
theorem c4_completion_handshake :
    ∀ (oracle : Nat → Nat) (fuel idx : Nat) (d : Device) (buf : Nat),
      (d.pending ≠ some buf →
        reportSentHook oracle fuel idx true d buf =
          ⟨d, [(.ledSet true, d.pending)], idx, .finished⟩) ∧
      (d.pending = some buf →
        reportSentHook oracle fuel idx true d buf =
          (let r := runLoopD oracle fuel idx {d with pending := Option.none}
                      (some .rptSent)
           ⟨r.dev, (.ledSet true, some buf) :: r.trace, r.idx, r.ended⟩)) := by
  intro oracle fuel idx d buf
  constructor
  · intro h
    have h2 : ¬ some buf = d.pending := fun hc => h hc.symm
    simp [reportSentHook, h2]
  · intro h
    simp [reportSentHook, h]

/-- Witness for `c4_completion_handshake`: with pending handle `5`, the
notification for buffer `7` is ignored and the notification for buffer `5`
clears the handle and runs the FSM. -/
theorem c4_completion_handshake_witness :
    reportSentHook (fun _ => 0) 4 0 true ⟨.waitNewMotion, some 5, 6⟩ 7 =
      ⟨⟨.waitNewMotion, some 5, 6⟩, [(.ledSet true, some 5)], 0, .finished⟩ ∧
    reportSentHook (fun _ => 0) 4 0 true ⟨.waitNewMotion, some 5, 6⟩ 5 =
      (let r := runLoopD (fun _ => 0) 4 0 ⟨.waitNewMotion, Option.none, 6⟩
                  (some .rptSent)
       ⟨r.dev, (.ledSet true, some 5) :: r.trace, r.idx, r.ended⟩) :=
  ⟨(c4_completion_handshake (fun _ => 0) 4 0 ⟨.waitNewMotion, some 5, 6⟩ 7).1
     (by decide),
   (c4_completion_handshake (fun _ => 0) 4 0 ⟨.waitNewMotion, some 5, 6⟩ 5).2
     (by decide)⟩

/-! ## C5: at most one outstanding transmission -/

/-- An action that is not a broadcast leaves `current_rpc_buffer`
unchanged. -/
theorem applyActD_pending (d : Device) (a : Act) (h : isSendB a = false) :
    (applyActD d a).pending = d.pending := by
  cases a <;> simp [applyActD] <;> simp [isSendB] at h

/-- A broadcast-free action block changes nothing about the pending handle
and its trace is trivially clean. -/
theorem runActs_no_sends :
    ∀ (acts : List Act) (d : Device), countSends acts = 0 →
      (runActs d acts).1.pending = d.pending ∧
      sendsClean (runActs d acts).2 = true := by
  intro acts
  induction acts with
  | nil => intro d _; exact ⟨rfl, rfl⟩
  | cons a rest ih =>
    intro d h
    by_cases hs : isSendB a
    · simp [countSends, hs] at h
    · simp [countSends, hs] at h
      have hp := applyActD_pending d a (by simp [hs])
      have := ih (applyActD d a) h
      refine ⟨by simp [runActs, this.1, hp], ?_⟩
      simp [runActs, sendsClean] at this ⊢
      exact ⟨Or.inl (by simp [hs]), this.2⟩

/-- If the pending handle is clear and the action block contains at most one
broadcast, every broadcast in the block is issued with the handle clear. -/
theorem runActs_clean :
    ∀ (acts : List Act) (d : Device), d.pending = Option.none →
      countSends acts ≤ 1 → sendsClean (runActs d acts).2 = true := by
  intro acts
  induction acts with
  | nil => intro d _ _; rfl
  | cons a rest ih =>
    intro d hp h
    by_cases hs : isSendB a
    · simp [countSends, hs] at h
      have h0 : countSends rest = 0 := by omega
      have := (runActs_no_sends rest (applyActD d a) h0).2
      simp [runActs, sendsClean] at this ⊢
      exact ⟨Or.inr (by simp [hp]), this⟩
    · simp [countSends, hs] at h
      have hp2 : (applyActD d a).pending = Option.none := by
        rw [applyActD_pending d a (by simp [hs])]; exact hp
      have := ih (applyActD d a) hp2 h
      simp [runActs, sendsClean] at this ⊢
      exact ⟨Or.inl (by simp [hs]), this⟩

/-- Each transition broadcasts at most once. -/
theorem fsmStep_sends_le_one :
    ∀ (s : DState) (e : Event), countSends (fsmStep s e).acts ≤ 1 := by
  decide

/-- A transition that goes back to sleep broadcasts nothing. -/
theorem fsmStep_sleep_no_sends :
    ∀ (s : DState) (e : Event),
      isSleepSrc (fsmStep s e).eventSrc = true →
      countSends (fsmStep s e).acts = 0 := by
  decide

/-- Driver loop invariant: entered with `current_rpc_buffer` clear, every
broadcast it performs is issued with the handle clear. -/
theorem runLoopD_sendsClean (oracle : Nat → Nat) :
    ∀ (fuel idx : Nat) (d : Device) (ev : Option Event),
      d.pending = Option.none →
      sendsClean (runLoopD oracle fuel idx d ev).trace = true := by
  intro fuel
  induction fuel with
  | zero =>
    intro idx d ev hp
    cases ev <;> rfl
  | succ fuel ih =>
    intro idx d ev hp
    cases ev with
    | none => rfl
    | some e =>
      have hle := fsmStep_sends_le_one d.state e
      have hra := runActs_clean (fsmStep d.state e).acts d hp hle
      simp only [runLoopD]
      cases hsrc : (fsmStep d.state e).eventSrc with
      | fatal => simpa [hsrc] using hra
      | noEvent => simpa [hsrc] using hra
      | sleepFor dur =>
        have h0 : countSends (fsmStep d.state e).acts = 0 :=
          fsmStep_sleep_no_sends d.state e (by simp [isSleepSrc, hsrc])
        have hp2 := (runActs_no_sends (fsmStep d.state e).acts d h0).1
        have hrec := ih (idx + 1)
          (runActs d (fsmStep d.state e).acts).1
          (some (classify (oracle idx))) (by rw [hp2]; exact hp)
        simp only [hsrc, sendsClean, List.all_append]
        simp only [sendsClean] at hra hrec
        simp [hra, hrec]

/-- The completion hook never broadcasts with the handle set: it either
ignores the notification or clears the handle before re-entering the
loop. -/
theorem reportSentHook_sendsClean
    (oracle : Nat → Nat) (fuel idx : Nat) (gate : Bool) (d : Device)
    (buf : Nat) :
    sendsClean (reportSentHook oracle fuel idx gate d buf).trace = true := by
  cases gate with
  | false => rfl
  | true =>
    by_cases h : some buf = d.pending
    · have := runLoopD_sendsClean oracle fuel idx
        {d with pending := Option.none} (some .rptSent) rfl
      simp [reportSentHook, h, sendsClean] at this ⊢
      exact ⟨Or.inl (by simp [isSendB]), this⟩
    · simp [reportSentHook, h, sendsClean, isSendB]

/-- Processing any sequence of completion callbacks only issues broadcasts
with the handle clear. -/
theorem execCallbacks_sendsClean (oracle : Nat → Nat) (fuel : Nat) :
    ∀ (cbs : List Nat) (idx : Nat) (d : Device),
      sendsClean (execCallbacks oracle fuel cbs idx d).trace = true := by
  intro cbs
  induction cbs with
  | nil => intro idx d; rfl
  | cons buf rest ih =>
    intro idx d
    have h1 := reportSentHook_sendsClean oracle fuel idx true d buf
    have h2 := ih (reportSentHook oracle fuel idx true d buf).idx
      (reportSentHook oracle fuel idx true d buf).dev
    simp only [execCallbacks, sendsClean, List.all_append]
    simp only [sendsClean] at h1 h2
    simp [h1, h2]

/-- C5: in every modelled execution (the `_init` kickoff followed by any
sequence of completion callbacks, with any sleep-outcome oracle and any
loop fuel), every broadcast is issued while `current_rpc_buffer` is clear:
a new report transmission is never issued while a prior transmission is
still outstanding. -/
theorem c5_single_outstanding_tx :
    ∀ (oracle : Nat → Nat) (fuel : Nat) (callbacks : List Nat),
      sendsClean (execution oracle fuel callbacks).trace = true := by
  intro oracle fuel callbacks
  have h1 := runLoopD_sendsClean oracle fuel 0 initialDevice
    (some .expiry) rfl
  have h2 := execCallbacks_sendsClean oracle fuel callbacks
    (runLoopD oracle fuel 0 initialDevice (some .expiry)).idx
    (runLoopD oracle fuel 0 initialDevice (some .expiry)).dev
  simp only [execution, sendsClean, List.all_append]
  simp only [sendsClean] at h1 h2
  simp [h1, h2]

/-! ## C9: termination of the driver loop -/

/-- Every `(state, event)` pair needs at least one loop iteration. -/
theorem rank_pos : ∀ (s : DState) (e : Event), 1 ≤ rank s e := by
  decide

/-- No `(state, event)` pair needs more than three loop iterations. -/
theorem rank_le_three : ∀ (s : DState) (e : Event), rank s e ≤ 3 := by
  decide

/-- Either classification of a sleep outcome. -/
theorem classify_cases (r : Nat) :
    classify r = Event.expiry ∨ classify r = Event.motion := by
  by_cases h : r = 0
  · exact Or.inl (by simp [classify, h])
  · exact Or.inr (by simp [classify, h])

/-- When a transition goes back to sleep, the iteration count needed from
the follow-up `(next state, classified event)` pair strictly drops. -/
theorem rank_decreases :
    ∀ (s : DState) (e : Event) (r dur : Nat),
      (fsmStep s e).eventSrc = .sleepFor dur →
      rank (fsmStep s e).next (classify r) < rank s e := by
  intro s e r dur h
  rcases classify_cases r with hc | hc <;>
    cases s <;> cases e <;> simp [fsmStep] at h ⊢ <;> simp [hc, rank]

/-- Running a transition's actions leaves `device_state` at the transition's
`next` state. -/
theorem runActs_state :
    ∀ (acts : List Act) (d : Device),
      (runActs d acts).1 = acts.foldl applyActD d := by
  intro acts
  induction acts with
  | nil => intro d; rfl
  | cons a rest ih => intro d; simp [runActs, List.foldl, ih]

/-- The device after a transition's actions is in the transition's `next`
state. -/
theorem runActs_fsmStep_state :
    ∀ (d : Device) (e : Event),
      (runActs d (fsmStep d.state e).acts).1.state = (fsmStep d.state e).next := by
  intro d e
  rw [runActs_state]
  cases hs : d.state <;> cases e <;>
    simp [fsmStep, monitorMotionOps, monitorMotion, sendReportOps,
          List.foldl, applyActD, hs]

/-- With fuel at least the rank of the initial pair, the loop never runs out
of fuel. -/
theorem runLoopD_no_fuelOut (oracle : Nat → Nat) :
    ∀ (n idx : Nat) (d : Device) (e : Event),
      rank d.state e ≤ n →
      (runLoopD oracle n idx d (some e)).ended ≠ .fuelOut := by
  intro n
  induction n with
  | zero =>
    intro idx d e h
    have := rank_pos d.state e
    omega
  | succ n ih =>
    intro idx d e h
    simp only [runLoopD]
    cases hsrc : (fsmStep d.state e).eventSrc with
    | fatal => simp
    | noEvent => simp
    | sleepFor dur =>
      simp only
      have hdec := rank_decreases d.state e (oracle idx) dur hsrc
      have hst := runActs_fsmStep_state d e
      apply ih
      rw [hst]
      omega

/-- C9: for every starting device state and initial event, every sleep
oracle, and fuel at least 3, the `_fsm` loop invocation terminates — it
either finishes with no pending event or reaches the fatal `reboot()`. -/
theorem c9_fsm_loop_terminates :
    ∀ (oracle : Nat → Nat) (f idx : Nat) (d : Device) (e : Event),
      (runLoopD oracle (3 + f) idx d (some e)).ended = .finished ∨
      (runLoopD oracle (3 + f) idx d (some e)).ended = .rebooted := by
  intro oracle f idx d e
  have h := runLoopD_no_fuelOut oracle (3 + f) idx d e
    (le_trans (rank_le_three d.state e) (by omega))
  cases hE : (runLoopD oracle (3 + f) idx d (some e)).ended with
  | finished => exact Or.inl rfl
  | rebooted => exact Or.inr rfl
  | fuelOut => exact absurd hE h

/-! ## C8: the startup gate -/

/-- State of the startup gate after `12 + k` one-second ticks: the gate is
closed for the first 11 ticks, `_init` runs on tick 12 and never again. -/
theorem runTicks_after_gate :
    ∀ k : Nat, (runTicks (12 + k)).1 = ⟨11 + k, true⟩ ∧
      (runTicks (12 + k)).2 = 1 := by
  intro k
  induction k with
  | zero => decide
  | succ k ih =>
    have h12 : 12 + (k + 1) = (12 + k) + 1 := rfl
    rw [h12]
    simp [runTicks, ih.1, ih.2, tick1s, STARTUP_DELAY]
    omega

/-- C8: no FSM processing happens before the boot countdown elapses (no
`_init` during the first 11 ticks, and the completion hook is a no-op while
the gate is closed); during the countdown the sub-second tick pulses the
LED and afterwards it does nothing; when the countdown completes, `_init`
runs exactly once and never again — it sets every pin 0..32 to a low-power
output, takes an initial sensor snapshot, enables the button and motion
input pins, arms motion detection, and injects the synthetic `Expiry` as
the first FSM event, after which the device state is `WaitNewMotion` with
motion armed and a classified sleep of `STILL_REPORT_PERIOD = 120` seconds
requested. -/
theorem c8_startup_gate :
    ((List.range 12).all fun n => (runTicks n).2 == 0) = true ∧
    (∀ k : Nat, (runTicks (12 + k)).1.initialized = true ∧
      (runTicks (12 + k)).2 = 1) ∧
    tick100ms false = [.pulse LED_PIN 50] ∧
    tick100ms true = [] ∧
    (∀ (oracle : Nat → Nat) (fuel idx : Nat) (d : Device) (buf : Nat),
      reportSentHook oracle fuel idx false d buf = ⟨d, [], idx, .finished⟩) ∧
    ((List.range 33).all fun p =>
      decide (HwAct.setPinDir p true ∈ initActs) &&
      decide (HwAct.writePin p false ∈ initActs)) = true ∧
    HwAct.updateSensors ∈ initActs ∧
    HwAct.setPinDir BUTTON_PIN false ∈ initActs ∧
    HwAct.setPinDir MOTION_PIN false ∈ initActs ∧
    HwAct.monitorArm true ∈ initActs ∧
    initActs.getLast? = some (.fsmCall .expiry) ∧
    endMConf ⟨.init, false, false⟩ .expiry = ⟨.waitNewMotion, true, true⟩ ∧
    (fsmStep .init .expiry).eventSrc = .sleepFor 120 := by
  refine ⟨by decide, ?_, rfl, rfl, ?_, by decide, by decide, by decide,
    by decide, by decide, by decide, by decide, by decide⟩
  · intro k
    exact ⟨by rw [(runTicks_after_gate k).1], (runTicks_after_gate k).2⟩
  · intro oracle fuel idx d buf
    rfl

end LightSense
